import Mathlib

/-
Shallow embedding of `crates/turbopack-dev/src/chunking_context.rs`:
the development-mode chunking context (`DevChunkingContext`), its builder,
the path/URL resolver helpers, the co-location classifier, the chunk
converter and the two chunk-group assembly operations.

Paths and hashes are byte strings in the source; they are modelled as
lists of characters (`String.data` of ASCII strings, one character per
byte). Fallible operations (`Result` in the source, or a slicing panic)
are modelled with `Except`/`Option`.
-/

namespace TurboDev

/-- Character-list strings: the contents of Rust `String`/`str` values. -/
abbrev Str := List Char

/-- Modelled from the spec: Rust `str::starts_with` on byte strings
(external to the chunking-context source file). -/
def leadsWith : Str → Str → Bool
  | [], _ => true
  | _ :: _, [] => false
  | a :: xs, b :: ys => a == b && leadsWith xs ys

/-- Modelled from the spec: Rust `str::strip_prefix` — removes a leading
occurrence of `pre` from `s`, or reports `none` when `s` does not start
with `pre`. -/
def stripLead? (pre s : Str) : Option Str :=
  if leadsWith pre s then some (s.drop pre.length) else none

/-- Modelled from the spec: Rust `str::contains` with a string pattern —
substring containment. -/
def containsSeq (pat : Str) : Str → Bool
  | [] => pat.isEmpty
  | c :: rest => leadsWith pat (c :: rest) || containsSeq pat rest

/-- Modelled from the spec: the final path component (Rust
`FileSystemPath::file_name`, the part after the last slash). -/
def afterLastSlash (p : Str) : Str :=
  (p.reverse.takeWhile (fun c => c != '/')).reverse

/-- Modelled from the spec: parent lookup on the textual path (Rust
`FileSystemPath::parent`): everything before the last slash, or the empty
path when there is no slash. -/
def parentStr (p : Str) : Str :=
  match p.reverse.dropWhile (fun c => c != '/') with
  | [] => []
  | _ :: rest => rest.reverse

/-- Modelled from the spec: extension extraction
(`FileSystemPath::extension_ref`, "extension/basename extraction" in the
spec's external-interface list). The extension is the part after the last
dot, without the dot, and only when that dot lies in the final path
component; the spec's `asset_path` example
(`logo.png` with hash `deadbeef1234` gives `logo.deadbeef.png`) pins down
that the returned extension carries no leading dot. -/
def extSplit (p : Str) : Option Str :=
  let e := p.reverse.takeWhile (fun c => c != '.')
  if e.length == p.length then none
  else if e.contains '/' then none
  else some e.reverse

/-- Modelled from the spec: filesystem path identity — a filesystem id
plus a textual path inside it (`turbo_tasks_fs::FileSystemPath`). -/
structure FileSystemPath where
  fs : Nat
  path : Str
deriving DecidableEq

def FileSystemPath.parent (p : FileSystemPath) : FileSystemPath :=
  { fs := p.fs, path := parentStr p.path }

def FileSystemPath.file_name (p : FileSystemPath) : Str :=
  afterLastSlash p.path

def FileSystemPath.extension_ref (p : FileSystemPath) : Option Str :=
  extSplit p.path

/-- Modelled from the spec: path join (appending one relative component). -/
def FileSystemPath.join (p : FileSystemPath) (name : Str) : FileSystemPath :=
  { fs := p.fs, path := p.path ++ '/' :: name }

/-- Modelled from the spec: relative-path computation
(`FileSystemPath::get_path_to`), which "may report no relation for
unrelated roots": `some` of the relative path exactly when `other` lies
inside `self` on the same filesystem. -/
def FileSystemPath.get_path_to (self other : FileSystemPath) : Option Str :=
  if self.fs != other.fs then none
  else
    match stripLead? self.path other.path with
    | none => none
    | some rest =>
      if self.path.isEmpty then some rest
      else
        match rest with
        | '/' :: tail => some tail
        | _ => none

/-- Opaque environment value (`turbopack_core::environment::Environment`). -/
structure Environment where
  id : Nat
deriving DecidableEq

/-- Runtime kind selector (`turbopack_ecmascript_runtime::RuntimeType`);
its `Default::default()` is the `default` constructor. -/
inductive RuntimeType where
  | default
  | dummy
deriving DecidableEq

/-- Asset identity: its resolved filesystem path
(`turbopack_core::ident::AssetIdent`, reduced to the `path` component the
chunking context reads). -/
structure AssetIdent where
  path : FileSystemPath
deriving DecidableEq

/-- A module, identified by its asset identity. -/
structure Module where
  ident : AssetIdent
deriving DecidableEq

/-- Ordered evaluatable set (`EvaluatableAssets`). -/
abbrev EvaluatableAssets := List Module

/-- Opaque availability state threaded through grouping calls
(`AvailabilityInfo`). -/
structure AvailabilityInfo where
  data : Nat
deriving DecidableEq

/-- The development-mode chunking policy (`DevChunkingContext`), with the
exact fields of the source struct. -/
structure DevChunkingContext where
  context_path : FileSystemPath
  output_root : FileSystemPath
  chunk_root_path : FileSystemPath
  reference_chunk_source_maps : Bool
  reference_css_chunk_source_maps : Bool
  asset_root_path : FileSystemPath
  chunk_base_path : Option Str
  asset_base_path : Option Str
  enable_hot_module_replacement : Bool
  environment : Environment
  runtime_type : RuntimeType
deriving DecidableEq

/-- The builder wrapping a partially configured context
(`DevChunkingContextBuilder`). -/
structure DevChunkingContextBuilder where
  chunking_context : DevChunkingContext
deriving DecidableEq

def DevChunkingContextBuilder.hot_module_replacement
    (self : DevChunkingContextBuilder) : DevChunkingContextBuilder :=
  { self with chunking_context :=
      { self.chunking_context with enable_hot_module_replacement := true } }

def DevChunkingContextBuilder.asset_base_path
    (self : DevChunkingContextBuilder) (v : Option Str) :
    DevChunkingContextBuilder :=
  { self with chunking_context :=
      { self.chunking_context with asset_base_path := v } }

def DevChunkingContextBuilder.chunk_base_path
    (self : DevChunkingContextBuilder) (v : Option Str) :
    DevChunkingContextBuilder :=
  { self with chunking_context :=
      { self.chunking_context with chunk_base_path := v } }

def DevChunkingContextBuilder.reference_chunk_source_maps
    (self : DevChunkingContextBuilder) (source_maps : Bool) :
    DevChunkingContextBuilder :=
  { self with chunking_context :=
      { self.chunking_context with reference_chunk_source_maps := source_maps } }

def DevChunkingContextBuilder.reference_css_chunk_source_maps
    (self : DevChunkingContextBuilder) (source_maps : Bool) :
    DevChunkingContextBuilder :=
  { self with chunking_context :=
      { self.chunking_context with
          reference_css_chunk_source_maps := source_maps } }

def DevChunkingContextBuilder.runtime_type
    (self : DevChunkingContextBuilder) (v : RuntimeType) :
    DevChunkingContextBuilder :=
  { self with chunking_context :=
      { self.chunking_context with runtime_type := v } }

/-- `build` hands out the configured context (`DevChunkingContext::new`
only cells the value). -/
def DevChunkingContextBuilder.build
    (self : DevChunkingContextBuilder) : DevChunkingContext :=
  self.chunking_context

/-- `DevChunkingContext::builder`: the four required path roots and the
environment, every other field at its default. -/
def DevChunkingContext.builder
    (context_path output_root chunk_root_path asset_root_path : FileSystemPath)
    (environment : Environment) : DevChunkingContextBuilder :=
  { chunking_context :=
      { context_path := context_path
        output_root := output_root
        chunk_root_path := chunk_root_path
        reference_chunk_source_maps := true
        reference_css_chunk_source_maps := true
        asset_root_path := asset_root_path
        chunk_base_path := none
        asset_base_path := none
        enable_hot_module_replacement := false
        environment := environment
        runtime_type := RuntimeType.default } }

/-- An ecmascript chunk produced by the grouping algorithm
(`EcmascriptChunk`), reduced to its identity. -/
structure EcmascriptChunk where
  ident : AssetIdent
deriving DecidableEq

/-- Source tag of a chunk-list registration artifact
(`EcmascriptDevChunkListSource`). -/
inductive ChunkListSource where
  | entry
  | dynamic
deriving DecidableEq

/-- Output artifacts the chunking context produces: the development
script-chunk wrapper (`EcmascriptDevChunk::new(self, chunk)`), a
pass-through already-finalized asset, the chunk-list registration artifact
(`EcmascriptDevChunkList::new(self, ident, evaluatable_assets,
other_chunks, source)`) and the evaluate bootstrap chunk
(`EcmascriptDevEvaluateChunk::new(self, ident, other_chunks,
evaluatable_assets)`). -/
inductive OutputAsset where
  | devChunk (context : DevChunkingContext) (chunk : EcmascriptChunk)
  | finalized (ident : AssetIdent)
  | chunkList (context : DevChunkingContext) (ident : AssetIdent)
      (evaluatable_assets : EvaluatableAssets)
      (other_chunks : List OutputAsset) (source : ChunkListSource)
  | evaluateChunk (context : DevChunkingContext) (ident : AssetIdent)
      (other_chunks : List OutputAsset)
      (evaluatable_assets : EvaluatableAssets)

/-- A chunk handed back by the grouping algorithm, by the downcasts
`generate_chunk` distinguishes: an `EcmascriptChunk`, something already
sidecastable to an output asset, or an unsupported kind. -/
inductive Chunk where
  | ecmascript (chunk : EcmascriptChunk)
  | passThrough (asset : OutputAsset)
  | unsupported (tag : Nat)

def Chunk.isEcmascript : Chunk → Bool
  | .ecmascript _ => true
  | _ => false

def Chunk.isOutputCapable : Chunk → Bool
  | .passThrough _ => true
  | _ => false

def DevChunkingContext.generate_chunk_list_register_chunk
    (self : DevChunkingContext) (ident : AssetIdent)
    (evaluatable_assets : EvaluatableAssets)
    (other_chunks : List OutputAsset) (source : ChunkListSource) :
    OutputAsset :=
  OutputAsset.chunkList self ident evaluatable_assets other_chunks source

def DevChunkingContext.generate_evaluate_chunk
    (self : DevChunkingContext) (ident : AssetIdent)
    (other_chunks : List OutputAsset)
    (evaluatable_assets : EvaluatableAssets) : OutputAsset :=
  OutputAsset.evaluateChunk self ident other_chunks evaluatable_assets

/-- `DevChunkingContext::generate_chunk`: wrap an ecmascript chunk in the
development chunk representation, pass through an output-capable chunk,
otherwise bail. -/
def DevChunkingContext.generate_chunk (self : DevChunkingContext)
    (chunk : Chunk) : Except Str OutputAsset :=
  match chunk with
  | .ecmascript c => .ok (OutputAsset.devChunk self c)
  | .passThrough a => .ok a
  | .unsupported _ =>
      .error "Unable to generate output asset for chunk".data

/-- Conversion of every grouped chunk in order, failing as a whole when a
single conversion fails (the `?`-propagation at the resolve loop). -/
def generateAll (self : DevChunkingContext) :
    List Chunk → Except Str (List OutputAsset)
  | [] => .ok []
  | c :: cs =>
    match self.generate_chunk c with
    | .error e => .error e
    | .ok a =>
      match generateAll self cs with
      | .error e => .error e
      | .ok rest => .ok (a :: rest)

/-- Result of the external grouping algorithm (`MakeChunkGroupResult`). -/
structure MakeChunkGroupResult where
  chunks : List Chunk
  availability_info : AvailabilityInfo

/-- Result handed back to the caller (`ChunkGroupResult`). -/
structure ChunkGroupResult where
  assets : List OutputAsset
  availability_info : AvailabilityInfo

/-- The external grouping algorithm `make_chunk_group`, taken as a
function parameter (external collaborator with a pure-function contract). -/
abbrev MakeChunkGroup :=
  List Module → AvailabilityInfo → MakeChunkGroupResult

/-- Assembly step of `chunk_group` after `make_chunk_group` returned:
convert every chunk, then push the registration artifact built from the
entry module's identity, an empty evaluatable set, the converted list and
the `Dynamic` tag. -/
def assembleDynamic (self : DevChunkingContext) (module : Module)
    (r : MakeChunkGroupResult) : Except Str ChunkGroupResult :=
  match generateAll self r.chunks with
  | .error e => .error e
  | .ok assets =>
    .ok { assets := assets ++
            [self.generate_chunk_list_register_chunk module.ident []
              assets ChunkListSource.dynamic]
          availability_info := r.availability_info }

/-- Assembly step of `evaluated_chunk_group` after `make_chunk_group`
returned: convert every chunk, then push the registration artifact (group
identity, the evaluatable set, the converted list, `Entry` tag) and the
evaluate bootstrap chunk (group identity, the converted list, the
evaluatable set). -/
def assembleEvaluated (self : DevChunkingContext) (ident : AssetIdent)
    (evaluatable_assets : EvaluatableAssets)
    (r : MakeChunkGroupResult) : Except Str ChunkGroupResult :=
  match generateAll self r.chunks with
  | .error e => .error e
  | .ok assets =>
    .ok { assets := assets ++
            [self.generate_chunk_list_register_chunk ident
              evaluatable_assets assets ChunkListSource.entry,
             self.generate_evaluate_chunk ident assets evaluatable_assets]
          availability_info := r.availability_info }

/-- `DevChunkingContext::chunk_group`: group a single dynamically imported
module and assemble the lazy group's artifacts. -/
def DevChunkingContext.chunk_group (self : DevChunkingContext)
    (mk : MakeChunkGroup) (module : Module)
    (availability_info : AvailabilityInfo) : Except Str ChunkGroupResult :=
  assembleDynamic self module (mk [module] availability_info)

/-- `DevChunkingContext::evaluated_chunk_group`: group the evaluatable set
as entries and assemble the entry group's artifacts. -/
def DevChunkingContext.evaluated_chunk_group (self : DevChunkingContext)
    (mk : MakeChunkGroup) (ident : AssetIdent)
    (evaluatable_assets : EvaluatableAssets)
    (availability_info : AvailabilityInfo) : Except Str ChunkGroupResult :=
  assembleEvaluated self ident evaluatable_assets
    (mk evaluatable_assets availability_info)

/-- The grouping algorithm as a relation, for stating determinism as a
hyperproperty over possibly nondeterministic collaborators. -/
abbrev MakeChunkGroupRel :=
  List Module → AvailabilityInfo → MakeChunkGroupResult → Prop

/-- Relational semantics of `chunk_group`: some grouping-algorithm answer
is assembled into the result. -/
def chunkGroupRel (self : DevChunkingContext) (mk : MakeChunkGroupRel)
    (module : Module) (avail : AvailabilityInfo)
    (res : Except Str ChunkGroupResult) : Prop :=
  ∃ r, mk [module] avail r ∧ res = assembleDynamic self module r

/-- Relational semantics of `evaluated_chunk_group`. -/
def evaluatedChunkGroupRel (self : DevChunkingContext)
    (mk : MakeChunkGroupRel) (ident : AssetIdent)
    (evaluatable_assets : EvaluatableAssets) (avail : AvailabilityInfo)
    (res : Except Str ChunkGroupResult) : Prop :=
  ∃ r, mk evaluatable_assets avail r ∧
    res = assembleEvaluated self ident evaluatable_assets r

/-- `ChunkingContext::asset_url` for the dev context: strip the
output-root directory from the asset's resolved path and prepend the
configured asset base path, defaulting to a single slash. -/
def DevChunkingContext.asset_url (self : DevChunkingContext)
    (ident : AssetIdent) : Except Str Str :=
  match stripLead? (self.output_root.path ++ "/".data) ident.path.path with
  | none => .error "expected output_root to contain asset path".data
  | some stripped =>
    .ok ((self.asset_base_path.getD "/".data) ++ stripped)

/-- `ChunkingContext::reference_chunk_source_maps` for the dev context:
start from the general flag and switch to the CSS flag when the artifact
path's extension equals the literal `".css"`. The artifact is represented
by its identity's path, the only part the source reads. -/
def DevChunkingContext.reference_chunk_source_maps_of
    (self : DevChunkingContext) (chunk_path : FileSystemPath) : Bool :=
  let extension := chunk_path.extension_ref.getD []
  if extension == ".css".data then self.reference_css_chunk_source_maps
  else self.reference_chunk_source_maps

/-- `ChunkingContext::can_be_in_same_chunk` for the dev context: relative
path from `asset_a`'s parent directory to `asset_b`, vendor-boundary
check on that relative path. -/
def DevChunkingContext.can_be_in_same_chunk (_self : DevChunkingContext)
    (asset_a asset_b : Module) : Bool :=
  let parent_dir := asset_a.ident.path.parent
  let path := asset_b.ident.path
  match parent_dir.get_path_to path with
  | some rel_path =>
    if !leadsWith "node_modules/".data rel_path
        && !containsSeq "/node_modules/".data rel_path then true
    else false
  | none => false

/-- `ChunkingContext::asset_path` for the dev context: content-addressed
static-asset naming. The source slices `content_hash[..8]` unconditionally,
which panics when the hash is shorter than eight bytes; the panic is
modelled as `none`. -/
def DevChunkingContext.asset_path (self : DevChunkingContext)
    (content_hash : Str) (original_asset_ident : AssetIdent) :
    Option FileSystemPath :=
  if content_hash.length < 8 then none
  else
    let source_path := original_asset_ident.path
    let basename := source_path.file_name
    let asset_path :=
      match source_path.extension_ref with
      | some ext =>
        basename.take (basename.length - ext.length - 1)
          ++ '.' :: content_hash.take 8 ++ '.' :: ext
      | none => basename ++ '.' :: content_hash.take 8
    some (self.asset_root_path.join asset_path)

/-- `ChunkingContext::is_hot_module_replacement_enabled`. -/
def DevChunkingContext.is_hot_module_replacement_enabled
    (self : DevChunkingContext) : Bool :=
  self.enable_hot_module_replacement

/-- Concrete example policy used by the witness statements. -/
def exCtx : DevChunkingContext :=
  (DevChunkingContext.builder
    { fs := 0, path := "/project".data }
    { fs := 0, path := "/out".data }
    { fs := 0, path := "/out/chunks".data }
    { fs := 0, path := "/out/static".data }
    { id := 0 }).build

/-- Concrete example asset identity. -/
def exIdent : AssetIdent :=
  { path := { fs := 0, path := "/out/static/logo.png".data } }

/-- Concrete example module. -/
def exModule : Module :=
  { ident := { path := { fs := 0, path := "/project/app/a.js".data } } }

/-- Concrete example availability state. -/
def exAvail : AvailabilityInfo :=
  { data := 0 }

/-- Concrete example ecmascript chunk. -/
def exEcma : EcmascriptChunk :=
  { ident := { path := { fs := 0, path := "/project/app/a.js".data } } }

/-- Concrete grouping algorithm producing one ecmascript chunk. -/
def mkOne : MakeChunkGroup :=
  fun _ avail => { chunks := [Chunk.ecmascript exEcma]
                   availability_info := avail }

/-- Concrete grouping algorithm producing no chunks. -/
def mkEmpty : MakeChunkGroup :=
  fun _ avail => { chunks := [], availability_info := avail }

/-- Graph relation of `mkEmpty`, a deterministic collaborator. -/
def graphMk : MakeChunkGroupRel :=
  fun _ avail r => r = { chunks := [], availability_info := avail }

/-- Concrete example policy with the CSS source-map flag switched off,
the general flag left on. -/
def exCtxCssOff : DevChunkingContext :=
  ((DevChunkingContext.builder
    { fs := 0, path := "/project".data }
    { fs := 0, path := "/out".data }
    { fs := 0, path := "/out/chunks".data }
    { fs := 0, path := "/out/static".data }
    { id := 0 }).reference_css_chunk_source_maps false).build

/-- Concrete example path of a CSS output artifact. -/
def cssPath : FileSystemPath :=
  { fs := 0, path := "/out/chunks/app.css".data }

/-- C8: the builder fills every non-required field with its default
(source maps on for both flags, HMR off, no base paths, default runtime),
and each chained setter overrides exactly its own field, leaving all
others unchanged, before `build` yields the final policy value. -/
theorem builder_spec :
    (∀ cp oroot croot aroot env,
      (DevChunkingContext.builder cp oroot croot aroot env).chunking_context =
        { context_path := cp
          output_root := oroot
          chunk_root_path := croot
          reference_chunk_source_maps := true
          reference_css_chunk_source_maps := true
          asset_root_path := aroot
          chunk_base_path := none
          asset_base_path := none
          enable_hot_module_replacement := false
          environment := env
          runtime_type := RuntimeType.default })
    ∧ (∀ b : DevChunkingContextBuilder,
        b.hot_module_replacement.chunking_context =
          { b.chunking_context with enable_hot_module_replacement := true })
    ∧ (∀ b v, (DevChunkingContextBuilder.asset_base_path b v).chunking_context
        = { b.chunking_context with asset_base_path := v })
    ∧ (∀ b v, (DevChunkingContextBuilder.chunk_base_path b v).chunking_context
        = { b.chunking_context with chunk_base_path := v })
    ∧ (∀ b v,
        (DevChunkingContextBuilder.reference_chunk_source_maps b
          v).chunking_context
        = { b.chunking_context with reference_chunk_source_maps := v })
    ∧ (∀ b v,
        (DevChunkingContextBuilder.reference_css_chunk_source_maps b
          v).chunking_context
        = { b.chunking_context with reference_css_chunk_source_maps := v })
    ∧ (∀ b v, (DevChunkingContextBuilder.runtime_type b v).chunking_context
        = { b.chunking_context with runtime_type := v })
    ∧ (∀ b, DevChunkingContextBuilder.build b = b.chunking_context) :=
  ⟨fun _ _ _ _ _ => rfl, fun _ => rfl, fun _ _ => rfl, fun _ _ => rfl,
   fun _ _ => rfl, fun _ _ => rfl, fun _ _ => rfl, fun _ => rfl⟩

/-- C6: `generate_chunk` wraps a script chunk in the development
script-chunk output, returns an already output-capable chunk unchanged,
and fails — with the unsupported-chunk-kind error, never silently — if
and only if neither branch matches. -/
theorem generate_chunk_spec (self : DevChunkingContext) (chunk : Chunk) :
    (∀ c, chunk = Chunk.ecmascript c →
      self.generate_chunk chunk = .ok (OutputAsset.devChunk self c))
    ∧ (∀ a, chunk = Chunk.passThrough a →
      self.generate_chunk chunk = .ok a)
    ∧ ((∃ e, self.generate_chunk chunk = .error e) ↔
      chunk.isEcmascript = false ∧ chunk.isOutputCapable = false)
    ∧ (∀ e, self.generate_chunk chunk = .error e →
      e = "Unable to generate output asset for chunk".data) := by
  cases chunk <;>
    simp [DevChunkingContext.generate_chunk, Chunk.isEcmascript,
      Chunk.isOutputCapable]

/-- Witness for C6 at a concrete script chunk. -/
theorem generate_chunk_spec_witness :
    exCtx.generate_chunk (Chunk.ecmascript exEcma) =
      .ok (OutputAsset.devChunk exCtx exEcma) :=
  (generate_chunk_spec exCtx (Chunk.ecmascript exEcma)).1 exEcma rfl

/-- C1: `evaluated_chunk_group` returns exactly the converted chunks in
the grouping algorithm's order, then one registration artifact carrying
the group identity, the evaluatable set (order preserved), the converted
list and the `Entry` tag, then one evaluate bootstrap artifact carrying
the converted list and the evaluatable set (order preserved). -/
theorem evaluated_chunk_group_spec (self : DevChunkingContext)
    (mk : MakeChunkGroup) (ident : AssetIdent)
    (evaluatable_assets : EvaluatableAssets) (avail : AvailabilityInfo) :
    self.evaluated_chunk_group mk ident evaluatable_assets avail =
      Except.map
        (fun converted =>
          { assets := converted ++
              [OutputAsset.chunkList self ident evaluatable_assets
                 converted ChunkListSource.entry,
               OutputAsset.evaluateChunk self ident converted
                 evaluatable_assets]
            availability_info :=
              (mk evaluatable_assets avail).availability_info })
        (generateAll self (mk evaluatable_assets avail).chunks) := by
  unfold DevChunkingContext.evaluated_chunk_group assembleEvaluated
  cases h : generateAll self (mk evaluatable_assets avail).chunks <;>
    simp [h, Except.map, DevChunkingContext.generate_chunk_list_register_chunk,
      DevChunkingContext.generate_evaluate_chunk]

/-- C2: `chunk_group` returns exactly the converted chunks followed by a
single registration artifact built from the entry module's identity, an
empty evaluatable set, the converted list as the other-chunks reference
and the `Dynamic` tag; and `evaluated_chunk_group` tolerates an empty
evaluatable set, yielding the chunk-derived artifacts plus an
empty-entries registration artifact. -/
theorem chunk_group_spec (self : DevChunkingContext) (mk : MakeChunkGroup)
    (module : Module) (avail : AvailabilityInfo) :
    (self.chunk_group mk module avail =
      Except.map
        (fun converted =>
          { assets := converted ++
              [OutputAsset.chunkList self module.ident [] converted
                 ChunkListSource.dynamic]
            availability_info := (mk [module] avail).availability_info })
        (generateAll self (mk [module] avail).chunks))
    ∧ (∀ ident converted,
        generateAll self (mk [] avail).chunks = .ok converted →
          self.evaluated_chunk_group mk ident [] avail =
            .ok { assets := converted ++
                    [OutputAsset.chunkList self ident [] converted
                       ChunkListSource.entry,
                     OutputAsset.evaluateChunk self ident converted []]
                  availability_info :=
                    (mk [] avail).availability_info }) := by
  constructor
  · unfold DevChunkingContext.chunk_group assembleDynamic
    cases h : generateAll self (mk [module] avail).chunks <;>
      simp [h, Except.map,
        DevChunkingContext.generate_chunk_list_register_chunk]
  · intro ident converted h
    unfold DevChunkingContext.evaluated_chunk_group assembleEvaluated
    simp [h, DevChunkingContext.generate_chunk_list_register_chunk,
      DevChunkingContext.generate_evaluate_chunk]

/-- Witness for C2: empty evaluatable set on the concrete policy. -/
theorem chunk_group_spec_witness :
    exCtx.evaluated_chunk_group mkEmpty exIdent [] exAvail =
      .ok { assets :=
              [] ++
                [OutputAsset.chunkList exCtx exIdent [] []
                   ChunkListSource.entry,
                 OutputAsset.evaluateChunk exCtx exIdent [] []]
            availability_info := (mkEmpty [] exAvail).availability_info } :=
  (chunk_group_spec exCtx mkEmpty exModule exAvail).2 exIdent [] rfl

/-- C3: `asset_url` returns the configured asset base path (defaulting to
a slash) concatenated with the asset's resolved path with the output-root
directory stripped, when the path lies under `output_root`; otherwise it
fails with an error rather than returning a URL. -/
theorem asset_url_spec (self : DevChunkingContext) (ident : AssetIdent) :
    self.asset_url ident =
      if leadsWith (self.output_root.path ++ "/".data) ident.path.path
      then .ok ((self.asset_base_path.getD "/".data) ++
        ident.path.path.drop (self.output_root.path.length + 1))
      else .error "expected output_root to contain asset path".data := by
  unfold DevChunkingContext.asset_url stripLead?
  cases h : leadsWith (self.output_root.path ++ "/".data) ident.path.path <;>
    simp [h, List.length_append, show ("/".data).length = 1 from rfl]

/-- C5: `can_be_in_same_chunk` returns true exactly when the relative
path from the first module's parent directory to the second module's path
exists and neither starts with `node_modules/` nor contains
`/node_modules/`; in particular it is false when no relative path exists
and false across a vendor boundary. -/
theorem can_be_in_same_chunk_spec (self : DevChunkingContext)
    (asset_a asset_b : Module) :
    self.can_be_in_same_chunk asset_a asset_b = true ↔
      ∃ rel,
        (asset_a.ident.path.parent).get_path_to asset_b.ident.path =
          some rel
        ∧ leadsWith "node_modules/".data rel = false
        ∧ containsSeq "/node_modules/".data rel = false := by
  unfold DevChunkingContext.can_be_in_same_chunk
  cases h : (asset_a.ident.path.parent).get_path_to asset_b.ident.path <;>
    simp [h]

/-- C9: for a fixed policy and a deterministic grouping collaborator, the
relational semantics of `chunk_group` and of `evaluated_chunk_group`
admit at most one result for identical inputs — both operations are
deterministic functions of entry module(s) and availability state. -/
theorem chunk_group_deterministic (self : DevChunkingContext)
    (mk : MakeChunkGroupRel)
    (hdet : ∀ entries avail r1 r2,
      mk entries avail r1 → mk entries avail r2 → r1 = r2) :
    (∀ module avail res1 res2,
      chunkGroupRel self mk module avail res1 →
      chunkGroupRel self mk module avail res2 → res1 = res2)
    ∧ (∀ ident evas avail res1 res2,
      evaluatedChunkGroupRel self mk ident evas avail res1 →
      evaluatedChunkGroupRel self mk ident evas avail res2 →
      res1 = res2) := by
  constructor
  · rintro module avail res1 res2 ⟨r1, hm1, he1⟩ ⟨r2, hm2, he2⟩
    subst he1
    subst he2
    rw [hdet _ _ _ _ hm1 hm2]
  · rintro ident evas avail res1 res2 ⟨r1, hm1, he1⟩ ⟨r2, hm2, he2⟩
    subst he1
    subst he2
    rw [hdet _ _ _ _ hm1 hm2]

/-- Witness for C9: the deterministic graph collaborator on concrete
inputs, equating the functional `chunk_group` run with its relational
result. -/
theorem chunk_group_deterministic_witness :
    exCtx.chunk_group mkEmpty exModule exAvail =
      assembleDynamic exCtx exModule
        { chunks := [], availability_info := exAvail } :=
  (chunk_group_deterministic exCtx graphMk
      (fun _ _ _ _ h1 h2 => h1.trans h2.symm)).1 exModule exAvail _ _
    ⟨{ chunks := [], availability_info := exAvail }, rfl, rfl⟩
    ⟨{ chunks := [], availability_info := exAvail }, rfl, rfl⟩

/-- C10: `asset_path` slices the first eight bytes of the content hash
unconditionally, so a hash shorter than eight bytes panics (modelled as
`none`) instead of producing a path, while any hash of at least eight
bytes produces one. -/
theorem asset_path_short_hash (self : DevChunkingContext)
    (content_hash : Str) (ident : AssetIdent) :
    (content_hash.length < 8 →
      self.asset_path content_hash ident = none)
    ∧ (8 ≤ content_hash.length →
      ∃ p, self.asset_path content_hash ident = some p) := by
  constructor
  · intro h
    unfold DevChunkingContext.asset_path
    simp [h]
  · intro h
    unfold DevChunkingContext.asset_path
    simp [Nat.not_lt.mpr h]

/-- Witness for C10: a three-byte hash is rejected. -/
theorem asset_path_short_hash_witness :
    exCtx.asset_path "abc".data exIdent = none :=
  (asset_path_short_hash exCtx "abc".data exIdent).1 (by decide)

/-- An extracted extension never contains a dot: it is a run of
non-dot characters after the last dot of the path. -/
theorem extSplit_no_dot {p e : Str} (h : extSplit p = some e) : '.' ∉ e := by
  unfold extSplit at h
  simp only at h
  split at h
  · exact Option.noConfusion h
  · split at h
    · exact Option.noConfusion h
    · intro hmem
      have he : (p.reverse.takeWhile (fun c => c != '.')).reverse = e :=
        Option.some.inj h
      have hmem' : '.' ∈ p.reverse.takeWhile (fun c => c != '.') := by
        rw [← he] at hmem
        exact List.mem_reverse.mp hmem
      have hp := List.mem_takeWhile_imp hmem'
      simp at hp

/-- An extracted extension is never the four-character string `.css`,
since that string contains a dot. -/
theorem extSplit_ne_css (p : Str) : extSplit p ≠ some ".css".data := by
  intro h
  exact extSplit_no_dot h (by decide)

/-- C7 evidence: the comparison of the (dotless) extension with the
literal `".css"` can never succeed, so `reference_chunk_source_maps`
always answers with the general flag; at the concrete CSS artifact below,
the policy has the CSS flag off yet the general flag (true) is returned. -/
theorem reference_chunk_source_maps_css_flag_dead :
    (∀ (self : DevChunkingContext) (p : FileSystemPath),
      self.reference_chunk_source_maps_of p =
        self.reference_chunk_source_maps)
    ∧ cssPath.extension_ref = some "css".data
    ∧ exCtxCssOff.reference_css_chunk_source_maps = false
    ∧ exCtxCssOff.reference_chunk_source_maps_of cssPath = true := by
  refine ⟨?_, by decide, by decide, by decide⟩
  intro self p
  unfold DevChunkingContext.reference_chunk_source_maps_of
  have hne : (p.extension_ref.getD [] == ".css".data) = false := by
    cases hext : p.extension_ref with
    | none => decide
    | some e =>
      simp only [Option.getD_some, beq_eq_false_iff_ne, ne_eq]
      intro hcontra
      exact extSplit_ne_css p.path (hext.trans (congrArg some hcontra))
  simp [hne]

/-- C4: `asset_path` builds `asset_root_path` joined with
`basename.<first 8 hash characters>.<extension>` when the original path
has an extension (basename taken without the extension), and
`basename.<first 8 hash characters>` when it has none; for a fixed
identity two hashes of length at least eight name the same path exactly
when their first eight characters agree. -/
theorem asset_path_spec (self : DevChunkingContext) (h1 h2 chash : Str)
    (ident : AssetIdent) :
    (∀ ext, ident.path.extension_ref = some ext → 8 ≤ chash.length →
      self.asset_path chash ident =
        some (self.asset_root_path.join
          (ident.path.file_name.take
              (ident.path.file_name.length - ext.length - 1)
            ++ '.' :: chash.take 8 ++ '.' :: ext)))
    ∧ (ident.path.extension_ref = none → 8 ≤ chash.length →
      self.asset_path chash ident =
        some (self.asset_root_path.join
          (ident.path.file_name ++ '.' :: chash.take 8)))
    ∧ (8 ≤ h1.length → 8 ≤ h2.length →
      (self.asset_path h1 ident = self.asset_path h2 ident ↔
        h1.take 8 = h2.take 8)) := by
  refine ⟨?_, ?_, ?_⟩
  · intro ext hext hlen
    unfold DevChunkingContext.asset_path
    simp [hext, Nat.not_lt.mpr hlen]
  · intro hext hlen
    unfold DevChunkingContext.asset_path
    simp [hext, Nat.not_lt.mpr hlen]
  · intro hl1 hl2
    unfold DevChunkingContext.asset_path
    simp only [Nat.not_lt.mpr hl1, Nat.not_lt.mpr hl2, if_false]
    cases hext : ident.path.extension_ref with
    | some ext =>
      simp [hext, FileSystemPath.join, List.append_right_inj,
        List.append_left_inj]
    | none =>
      simp [hext, FileSystemPath.join, List.append_right_inj]

/-- Witness for C4: the spec's example input, hash `deadbeef1234` on
`/src/logo.png`, yields `/out/static/logo.deadbeef.png`. -/
theorem asset_path_spec_witness :
    exCtx.asset_path "deadbeef1234".data
        { path := { fs := 0, path := "/src/logo.png".data } } =
      some { fs := 0, path := "/out/static/logo.deadbeef.png".data } :=
  (asset_path_spec exCtx "deadbeef1234".data "deadbeef1234".data
      "deadbeef1234".data
      { path := { fs := 0, path := "/src/logo.png".data } }).1
    "png".data (by decide) (by decide)

end TurboDev
